import Mathlib

/-!
Verification of the munti-crime-map repository snapshot: a shallow
embedding of its two source artifacts (the Tailwind style configuration
and the root layout component bundled with the guidance document) and
proofs of the specification claims about them.
-/

/-- JavaScript values as they occur in `tailwind.config.js`: string
literals, arrays, objects with ordered string-keyed fields, and a
`require(...)` call (used for the nativewind preset). -/
inductive JsVal where
  | str (s : String)
  | arr (elems : List JsVal)
  | obj (fields : List (String × JsVal))
  | requireCall (moduleName : String)

/-- Shallow embedding of the exported object of `tailwind.config.js`,
field for field in source order.  Braces inside the glob strings are
written with their escape codes. -/
def tailwindConfig : JsVal :=
  JsVal.obj
    [ ("content", JsVal.arr
        [ JsVal.str "./App.\x7bjs,jsx,ts,tsx\x7d"
        , JsVal.str "./app/**/*.\x7bjs,jsx,ts,tsx\x7d"
        , JsVal.str "./components/**/*.\x7bjs,jsx,ts,tsx\x7d" ])
    , ("presets", JsVal.arr [JsVal.requireCall "nativewind/preset"])
    , ("theme", JsVal.obj
        [ ("extend", JsVal.obj
            [ ("colors", JsVal.obj
                [ ("danger", JsVal.str "#dc2626")
                , ("warning", JsVal.str "#f59e0b")
                , ("safe", JsVal.str "#10b981") ]) ]) ])
    , ("plugins", JsVal.arr []) ]

/-- Look up a field of a JavaScript object by key. -/
def getField (v : JsVal) (k : String) : Option JsVal :=
  match v with
  | JsVal.obj fields => (fields.find? (fun f => f.1 == k)).map Prod.snd
  | _ => none

/-- Follow a path of keys through nested JavaScript objects. -/
def getPath : JsVal → List String → Option JsVal
  | v, [] => some v
  | v, k :: ks =>
    match getField v k with
    | some w => getPath w ks
    | none => none

/-- The ordered key list of a JavaScript object, `none` on non-objects. -/
def objKeys (v : JsVal) : Option (List String) :=
  match v with
  | JsVal.obj fields => some (fields.map Prod.fst)
  | _ => none

/-- The content-scan paths listed in the configuration's `content` array. -/
def contentPaths : List String :=
  match getField tailwindConfig "content" with
  | some (JsVal.arr elems) =>
      elems.filterMap (fun e =>
        match e with
        | JsVal.str s => some s
        | _ => none)
  | _ => []

/-- The extension group every content-scan path ends with. -/
def scanExtensionGroup : String := ".\x7bjs,jsx,ts,tsx\x7d"

/-- `hasSuffix suffix s` holds when the string `s` ends with `suffix`,
computed over the underlying character lists. -/
def hasSuffix (suffix s : String) : Bool :=
  suffix.data.length ≤ s.data.length &&
    s.data.drop (s.data.length - suffix.data.length) == suffix.data

/-- The severity color tokens of `theme.extend.colors`, as name/value
string pairs in source order. -/
def severityColors : List (String × String) :=
  match getPath tailwindConfig ["theme", "extend", "colors"] with
  | some (JsVal.obj fields) =>
      fields.filterMap (fun f =>
        match f.2 with
        | JsVal.str s => some (f.1, s)
        | _ => none)
  | _ => []

/-- A character is a lowercase hexadecimal digit: `0`..`9` or `a`..`f`. -/
def isLowerHexDigit (c : Char) : Bool :=
  (48 ≤ c.toNat && c.toNat ≤ 57) || (97 ≤ c.toNat && c.toNat ≤ 102)

/-- A well-formed six-digit lowercase CSS hex color literal: a `#`
followed by exactly six lowercase hexadecimal digits. -/
def isSixDigitLowerHex (s : String) : Bool :=
  match s.data with
  | '#' :: rest => rest.length == 6 && rest.all isLowerHexDigit
  | _ => false

/-- Options passed to a screen registration; `app/_layout.tsx` only ever
sets `headerShown`. -/
structure ScreenOptions where
  headerShown : Bool

/-- A `Stack.Screen` registration: a route name and its options. -/
structure Screen where
  name : String
  options : ScreenOptions

/-- The element tree the layout component renders: an expo-router
`Stack` whose children are its screen registrations. -/
inductive Element where
  | stack (screens : List Screen)

/-- Render-time effects a component could register (the guidance talks
about live-update subscriptions and their cleanup, none implemented). -/
inductive Effect where
  | subscription (channel : String)
  | cleanup (channel : String)

/-- The outcome of rendering a component: the element tree it returned
and the effects it registered while rendering. -/
structure RenderResult where
  tree : Element
  effects : List Effect

/-- A process environment: a partial assignment of string values to
environment variable names (such as `EXPO_PUBLIC_SUPABASE_URL` and
`EXPO_PUBLIC_SUPABASE_ANON_KEY`, which the documentation mentions). -/
def Env : Type := String → Option String

/-- Shallow embedding of `RootLayout` from `app/_layout.tsx`.  The
component body is a single JSX literal, so evaluation is modelled in
`Except` (an exception would be `Except.error`) under an ambient process
environment, which the source never reads: it renders a `Stack` with one
`Stack.Screen` named `index` whose options set `headerShown` to `false`,
and registers no effects. -/
def RootLayout (env : Env) : Except String RenderResult :=
  Except.ok
    (RenderResult.mk
      (Element.stack [Screen.mk "index" (ScreenOptions.mk false)])
      [])

/-- The screens registered by a successful render of `RootLayout`; an
exception or a non-stack tree would yield the empty list. -/
def renderedScreens (env : Env) : List Screen :=
  match RootLayout env with
  | Except.ok r =>
    match r.tree with
    | Element.stack screens => screens
  | Except.error _ => []

/-- The effects registered by a successful render of `RootLayout`. -/
def renderedEffects (env : Env) : List Effect :=
  match RootLayout env with
  | Except.ok r => r.effects
  | Except.error _ => []

/-- Field types appearing in the guidance document's TypeScript
examples. -/
inductive TsType where
  | string
  | number
  | voidType
  | named (n : String)
  | functionType (args : List TsType) (ret : TsType)

/-- The interface declarations appearing in the guidance document's code
examples, with their fields in source order: `CrimeRecord` and
`CrimeCardProps` are the only two. -/
def guidanceInterfaces : List (String × List (String × TsType)) :=
  [ ("CrimeRecord",
      [ ("id", TsType.string)
      , ("crime_type", TsType.string)
      , ("location_lat", TsType.number)
      , ("location_lng", TsType.number)
      , ("incident_date", TsType.string) ])
  , ("CrimeCardProps",
      [ ("crime", TsType.named "CrimeRecord")
      , ("onPress", TsType.functionType [TsType.string] TsType.voidType) ]) ]

/-- A field list has the crime-record shape described by the spec — an
identifier, a category, a coordinate pair, and a timestamp — read off
the guidance as the fields `id`, `crime_type`, `location_lat` with
`location_lng`, and `incident_date`. -/
def hasCrimeRecordShape (fields : List (String × TsType)) : Bool :=
  fields.map Prod.fst ==
    ["id", "crime_type", "location_lat", "location_lng", "incident_date"]

/-- Every name referenced by the executable sources: the layout
component's import specifiers, identifiers and JSX attribute values, and
the configuration's require argument.  Neither file mentions any other
name. -/
def executableReferencedNames : List String :=
  [ "../global.css", "expo-router", "Stack", "Stack.Screen", "index"
  , "headerShown", "RootLayout", "nativewind/preset" ]

/-- The repository's source files with their total line counts and the
number of those lines that are original systems logic.  The bundled
document holds the markdown guidance plus the eleven-line layout
component (507 lines); the configuration file has 20 lines; every line
is documentation, configuration, or framework boilerplate. -/
def sourceFiles : List (String × Nat × Nat) :=
  [ ("src/unnamed/part_000", 507, 0)
  , ("src/tailwind.config.js", 20, 0) ]

/-- Total line count over the repository's source files. -/
def totalSourceLines : Nat :=
  (sourceFiles.map (fun f => f.2.1)).sum

/-- Total count of original-systems-logic lines over the source files. -/
def totalSystemsLogicLines : Nat :=
  (sourceFiles.map (fun f => f.2.2)).sum

/-- C1: the root layout registers exactly one screen in the navigation
stack, that screen's options set `headerShown` to `false`, and no other
screen is registered, whatever the ambient environment. -/
theorem rootLayout_single_screen_header_hidden (env : Env) :
    (renderedScreens env).length = 1 ∧
    (renderedScreens env).all (fun s => s.options.headerShown == false) = true :=
  ⟨rfl, rfl⟩

/-- C2: the style configuration extends the theme with a color palette
only (the `extend` object has exactly the key `colors`), and that
palette defines exactly the three tokens `danger`, `warning`, `safe`. -/
theorem theme_extend_colors_only :
    (getPath tailwindConfig ["theme", "extend"]).bind objKeys =
      some ["colors"] ∧
    (getPath tailwindConfig ["theme", "extend", "colors"]).bind objKeys =
      some ["danger", "warning", "safe"] :=
  ⟨rfl, rfl⟩

/-- C3: evaluating the root layout component always returns an element
tree and never throws: for every environment the render is `Except.ok`. -/
theorem rootLayout_never_throws (env : Env) :
    ∃ result : RenderResult, RootLayout env = Except.ok result :=
  ⟨RenderResult.mk
     (Element.stack [Screen.mk "index" (ScreenOptions.mk false)]) [], rfl⟩

/-- C4: no present code reads environment variables: for any two
environments (in particular any assignments to the documented backend
URL and public key variables) the root layout produces identical
output. -/
theorem rootLayout_env_independent (env₁ env₂ : Env) :
    RootLayout env₁ = RootLayout env₂ :=
  rfl

/-- C5: the root layout registers no effects (no subscriptions, channels
or cleanups) and is deterministic: any two invocations, under any
environments, yield identical results. -/
theorem rootLayout_pure_no_effects (env env₁ env₂ : Env) :
    renderedEffects env = [] ∧ RootLayout env₁ = RootLayout env₂ :=
  ⟨rfl, rfl⟩

/-- C6: the configuration's `content` field enumerates exactly three
scan paths — the root App file, everything under the app directory, and
everything under the components directory — and every one ends with the
`js`,`jsx`,`ts`,`tsx` extension group. -/
theorem content_paths_enumeration :
    contentPaths =
      [ "./App.\x7bjs,jsx,ts,tsx\x7d"
      , "./app/**/*.\x7bjs,jsx,ts,tsx\x7d"
      , "./components/**/*.\x7bjs,jsx,ts,tsx\x7d" ] ∧
    contentPaths.all (hasSuffix scanExtensionGroup) = true :=
  ⟨rfl, by decide⟩

/-- C7: the guidance mentions exactly one crime-record-shaped interface
(`CrimeRecord`, with identifier, category, coordinate pair and
timestamp fields), and no executable source references that type at
all, so no executable code constructs, persists or validates one. -/
theorem crimeRecord_mentioned_once_never_used :
    (guidanceInterfaces.filter (fun i => hasCrimeRecordShape i.2)).map
      Prod.fst = ["CrimeRecord"] ∧
    (guidanceInterfaces.find? (fun i => i.1 == "CrimeRecord")).map
      Prod.snd =
      some
        [ ("id", TsType.string)
        , ("crime_type", TsType.string)
        , ("location_lat", TsType.number)
        , ("location_lng", TsType.number)
        , ("incident_date", TsType.string) ] ∧
    executableReferencedNames.contains "CrimeRecord" = false :=
  ⟨rfl, rfl, rfl⟩

/-- C8: the repository's source totals exactly 527 lines, of which zero
are original systems logic. -/
theorem source_totals_527_lines_no_logic :
    totalSourceLines = 527 ∧ totalSystemsLogicLines = 0 :=
  ⟨rfl, rfl⟩

/-- C9: the single registered screen's name is exactly the string
`index`, whatever the ambient environment. -/
theorem registered_screen_named_index (env : Env) :
    (renderedScreens env).map Screen.name = ["index"] :=
  rfl

/-- C10: each of the three severity color tokens (`danger`, `warning`,
`safe`) is bound to a well-formed CSS hex color literal: a `#` followed
by exactly six lowercase hexadecimal digits. -/
theorem severity_colors_are_lower_hex :
    severityColors.map Prod.fst = ["danger", "warning", "safe"] ∧
    severityColors.all (fun c => isSixDigitLowerHex c.2) = true :=
  ⟨rfl, by decide⟩
